import Mathlib

/-!
Shallow embedding of the fraud-detection utilities of the betting-app
repository (src/test/utils/real-time-monitor.js, network-analyzer.js,
behavioral-biometrics.js), together with theorems settling the frozen
claims about them.  JavaScript numbers are modelled as exact rationals
(timestamps as integers of milliseconds); JS Maps are modelled as
association lists; a risk calculator that may throw is modelled as a
function into Option.
-/

namespace RTM

/-- Event types dispatched on by updateBehaviorMetrics; every other
string value falls into the switch's implicit default, modelled by
`other`. -/
inductive EventType
  | bet_placed
  | location_change
  | device_switch
  | login
  | other
  deriving DecidableEq

/-- An incoming event of real-time-monitor.js.  Fields not consulted by
the embedded functions are omitted. -/
structure Event where
  userId : String
  type : EventType
  timestamp : ℤ
  amount : ℚ := 0
  loginAttempts : ℕ := 0
  deriving DecidableEq

/-- An entry of a profile's suspiciousActions array: its type tag and
timestamp (the payload fields do not matter to any claim). -/
structure SuspiciousAction where
  type : String
  timestamp : ℤ
  deriving DecidableEq

/-- behaviorMetrics of a user profile (real-time-monitor.js,
updateUserBehavior initialisation). -/
structure BehaviorMetrics where
  bettingVelocity : ℕ
  locationChanges : ℕ
  deviceSwitches : ℕ
  patternDeviations : ℕ
  suspiciousActions : List SuspiciousAction
  deriving DecidableEq

/-- Zeroed metrics of a freshly created profile. -/
def initMetrics : BehaviorMetrics := ⟨0, 0, 0, 0, []⟩

/-- A user profile stored in the monitor's activeUsers map. -/
structure UserProfile where
  userId : String
  firstSeen : ℤ
  lastActivity : ℤ
  eventCount : ℕ
  behaviorMetrics : BehaviorMetrics
  deriving DecidableEq

/-- The activeUsers Map, as an association list keyed by userId. -/
abbrev UserMap := List (String × UserProfile)

/-- Map.get: first binding of the key, if any. -/
def lookupUser (users : UserMap) (uid : String) : Option UserProfile :=
  (users.find? (fun kv => kv.1 == uid)).map Prod.snd

/-- Map.set: replace the binding if present, otherwise append. -/
def setUser (users : UserMap) (uid : String) (p : UserProfile) : UserMap :=
  match users with
  | [] => [(uid, p)]
  | (k, q) :: rest =>
    if k == uid then (k, p) :: rest else (k, q) :: setUser rest uid p

/-- Monitor configuration (constructor of RealTimeFraudMonitor);
defaults alertThreshold 0.7 and monitoringWindow 300000 ms. -/
structure Config where
  alertThreshold : ℚ := 7/10
  monitoringWindow : ℤ := 300000
  deriving DecidableEq

/-- calculateBettingVelocity: for a bet_placed event, the number of this
user's bet_placed events in the stream with timestamp strictly greater
than event.timestamp - 60000 (the code has no upper bound on the
timestamp); otherwise the previously stored velocity. -/
def calculateBettingVelocity (eventStream : List Event)
    (userProfile : UserProfile) (event : Event) : ℕ :=
  if event.type ≠ EventType.bet_placed then
    userProfile.behaviorMetrics.bettingVelocity
  else
    (eventStream.filter (fun e =>
      decide (e.userId = userProfile.userId ∧ e.type = EventType.bet_placed ∧
        event.timestamp - 60000 < e.timestamp))).length

/-- isRapidLocationChange: the second most recent location_change of the
user (descending sort by timestamp, index 1) occurred less than five
minutes before this event. -/
def isRapidLocationChange (eventStream : List Event)
    (userProfile : UserProfile) (event : Event) : Bool :=
  let sorted := (eventStream.filter (fun e =>
      decide (e.userId = userProfile.userId ∧ e.type = EventType.location_change))).mergeSort
      (fun a b => decide (b.timestamp ≤ a.timestamp))
  match sorted.get? 1 with
  | none => false
  | some lastLocationChange =>
      decide (event.timestamp - lastLocationChange.timestamp < 300000)

/-- updateBehaviorMetrics: per-type metric update followed by the
24-hour filter of suspiciousActions (keep entries with timestamp
strictly greater than event.timestamp - 24h). -/
def updateBehaviorMetrics (eventStream : List Event)
    (userProfile : UserProfile) (event : Event) : BehaviorMetrics :=
  let m := userProfile.behaviorMetrics
  let m1 : BehaviorMetrics :=
    match event.type with
    | EventType.bet_placed =>
      let mv := { m with
        bettingVelocity := calculateBettingVelocity eventStream userProfile event }
      if event.amount > 1000 then
        { mv with suspiciousActions :=
            mv.suspiciousActions ++ [⟨"high_value_bet", event.timestamp⟩] }
      else mv
    | EventType.location_change =>
      let ml := { m with locationChanges := m.locationChanges + 1 }
      if isRapidLocationChange eventStream userProfile event then
        { ml with suspiciousActions :=
            ml.suspiciousActions ++ [⟨"rapid_location_change", event.timestamp⟩] }
      else ml
    | EventType.device_switch =>
      { m with
        deviceSwitches := m.deviceSwitches + 1,
        suspiciousActions :=
          m.suspiciousActions ++ [⟨"device_switch", event.timestamp⟩] }
    | EventType.login =>
      if event.loginAttempts > 3 then
        { m with suspiciousActions :=
            m.suspiciousActions ++ [⟨"multiple_login_attempts", event.timestamp⟩] }
      else m
    | EventType.other => m
  { m1 with suspiciousActions :=
      m1.suspiciousActions.filter (fun a =>
        decide (event.timestamp - 86400000 < a.timestamp)) }

/-- updateUserBehavior: create the profile on first sight, bump
lastActivity and eventCount, then update the behavioural metrics of the
event's user only. -/
def updateUserBehavior (eventStream : List Event) (activeUsers : UserMap)
    (event : Event) : UserMap :=
  let users :=
    if (lookupUser activeUsers event.userId).isNone then
      setUser activeUsers event.userId
        ⟨event.userId, event.timestamp, event.timestamp, 0, initMetrics⟩
    else activeUsers
  match lookupUser users event.userId with
  | none => users
  | some p =>
    let p1 := { p with lastActivity := event.timestamp, eventCount := p.eventCount + 1 }
    let p2 := { p1 with behaviorMetrics := updateBehaviorMetrics eventStream p1 event }
    setUser users event.userId p2

/-- calculateVelocityRisk: without a profile the fallback (0, 1) is
returned; otherwise min(count of this user's events with timestamp
greater than event.timestamp - 60s over 10, 1) with weight 0.25. -/
def calculateVelocityRisk (eventStream : List Event) (activeUsers : UserMap)
    (event : Event) : ℚ × ℚ :=
  match lookupUser activeUsers event.userId with
  | none => (0, 1)
  | some _ =>
    let recentEvents := eventStream.filter (fun e =>
      decide (e.userId = event.userId ∧ event.timestamp - 60000 < e.timestamp))
    (min ((recentEvents.length : ℚ) / 10) 1, 1/4)

/-- calculatePatternRisk: min(suspiciousActions count / 5, 1) with
weight 0.3, fallback (0, 1) without a profile. -/
def calculatePatternRisk (activeUsers : UserMap) (event : Event) : ℚ × ℚ :=
  match lookupUser activeUsers event.userId with
  | none => (0, 1)
  | some p =>
    (min ((p.behaviorMetrics.suspiciousActions.length : ℚ) / 5) 1, 3/10)

/-- calculateLocationRisk: (0, 1) for any event that is not a
location_change and for users without a profile; otherwise
min(locationChanges / 3, 1) with weight 0.2. -/
def calculateLocationRisk (activeUsers : UserMap) (event : Event) : ℚ × ℚ :=
  if event.type ≠ EventType.location_change then (0, 1)
  else
    match lookupUser activeUsers event.userId with
    | none => (0, 1)
    | some p =>
      (min ((p.behaviorMetrics.locationChanges : ℚ) / 3) 1, 1/5)

/-- calculateDeviceRisk: min(deviceSwitches / 2, 1) with weight 0.15,
fallback (0, 1) without a profile. -/
def calculateDeviceRisk (activeUsers : UserMap) (event : Event) : ℚ × ℚ :=
  match lookupUser activeUsers event.userId with
  | none => (0, 1)
  | some p =>
    (min ((p.behaviorMetrics.deviceSwitches : ℚ) / 2) 1, 3/20)

/-- calculateBehaviorRisk: min(bettingVelocity / 100, 1) with weight
0.1, fallback (0, 1) without a profile. -/
def calculateBehaviorRisk (activeUsers : UserMap) (event : Event) : ℚ × ℚ :=
  match lookupUser activeUsers event.userId with
  | none => (0, 1)
  | some p =>
    (min ((p.behaviorMetrics.bettingVelocity : ℚ) / 100) 1, 1/10)

/-- A risk calculator as iterated by calculateRealTimeRisk; `none`
models a calculator that throws (its contribution is skipped by the
try/catch). -/
abbrev RiskCalculator := Event → Option (ℚ × ℚ)

/-- The (totalRisk, weightSum) accumulation loop of
calculateRealTimeRisk. -/
def riskAccum (results : List (Option (ℚ × ℚ))) : ℚ × ℚ :=
  results.foldl (fun acc r =>
    match r with
    | some rw => (acc.1 + rw.1 * rw.2, acc.2 + rw.2)
    | none => acc) (0, 0)

/-- calculateRealTimeRisk: weight-normalised accumulated risk, 0 when
the weight sum is not positive. -/
def calculateRealTimeRisk (calculators : List RiskCalculator)
    (event : Event) : ℚ :=
  let acc := riskAccum (calculators.map (fun c => c event))
  if 0 < acc.2 then acc.1 / acc.2 else 0

/-- The monitor's riskCalculators map: the five calculators in
registration order; none of them throws. -/
def monitorCalculators (eventStream : List Event) (activeUsers : UserMap) :
    List RiskCalculator :=
  [ fun e => some (calculateVelocityRisk eventStream activeUsers e),
    fun e => some (calculatePatternRisk activeUsers e),
    fun e => some (calculateLocationRisk activeUsers e),
    fun e => some (calculateDeviceRisk activeUsers e),
    fun e => some (calculateBehaviorRisk activeUsers e) ]

/-- getSeverityLevel with its lower-bound-inclusive bands. -/
def getSeverityLevel (riskScore : ℚ) : String :=
  if riskScore ≥ 9/10 then "critical"
  else if riskScore ≥ 7/10 then "high"
  else if riskScore ≥ 1/2 then "medium"
  else "low"

/-- An alert as queued by triggerAlert (fields relevant to the claims). -/
structure Alert where
  userId : String
  riskScore : ℚ
  severity : String
  deriving DecidableEq

/-- The monitor state threaded through processIncomingEvent. -/
structure MonitorState where
  config : Config
  eventStream : List Event
  activeUsers : UserMap
  alertQueue : List Alert
  deriving DecidableEq

/-- The event stream after the push and maintainSlidingWindow steps of
processIncomingEvent; `now` stands for Date.now() at processing time. -/
def processedStream (now : ℤ) (st : MonitorState) (event : Event) :
    List Event :=
  (st.eventStream ++ [event]).filter (fun e =>
    decide (now - st.config.monitoringWindow < e.timestamp))

/-- The activeUsers map after the updateUserBehavior step. -/
def processedUsers (now : ℤ) (st : MonitorState) (event : Event) : UserMap :=
  updateUserBehavior (processedStream now st event) st.activeUsers event

/-- The composite risk computed for the event, over the updated stream
and profiles. -/
def processedRisk (now : ℤ) (st : MonitorState) (event : Event) : ℚ :=
  calculateRealTimeRisk
    (monitorCalculators (processedStream now st event) (processedUsers now st event))
    event

/-- processIncomingEvent: push, sliding window, behaviour update, risk
scoring, and the alert-threshold check feeding triggerAlert. -/
def processIncomingEvent (now : ℤ) (st : MonitorState) (event : Event) :
    MonitorState :=
  let riskScore := processedRisk now st event
  { st with
    eventStream := processedStream now st event,
    activeUsers := processedUsers now st event,
    alertQueue :=
      if riskScore ≥ st.config.alertThreshold then
        st.alertQueue ++ [⟨event.userId, riskScore, getSeverityLevel riskScore⟩]
      else st.alertQueue }

/-- Composite score as the spec words it for C1: the weight-normalised
average over exactly the calculators that do not throw. -/
def specComposite (results : List (Option (ℚ × ℚ))) : ℚ :=
  let succ := results.filterMap id
  let wsum := (succ.map Prod.snd).sum
  if 0 < wsum then (succ.map (fun rw => rw.1 * rw.2)).sum / wsum else 0

/-- Betting-velocity count as the spec words it for C3: bet_placed
events of the user with timestamp inside the closed window
[t - 60s, t]. -/
def specWindowBetCount (eventStream : List Event) (uid : String) (t : ℤ) : ℕ :=
  (eventStream.filter (fun e =>
    decide (e.userId = uid ∧ e.type = EventType.bet_placed ∧
      t - 60000 ≤ e.timestamp ∧ e.timestamp ≤ t))).length

/-- A neutral sample event used by concrete instantiations. -/
def sampleEvent : Event := ⟨"user_1", EventType.other, 1000000, 0, 0⟩

/-- A fresh monitor state with the default configuration. -/
def sampleState : MonitorState := ⟨⟨7/10, 300000⟩, [], [], []⟩

/-- A bet_placed event of user "u" at t = 100000 ms. -/
def sampleBet : Event := ⟨"u", EventType.bet_placed, 100000, 50, 0⟩

/-- A bet_placed event of user "u" carrying the later timestamp
100001 ms, arriving out of order. -/
def futureBet : Event := ⟨"u", EventType.bet_placed, 100001, 50, 0⟩

/-- An event store in which the later-stamped bet is already present
when the earlier-stamped one is processed. -/
def outOfOrderStream : List Event := [futureBet, sampleBet]

/-- The stored profile of user "u". -/
def sampleProfile : UserProfile := ⟨"u", 0, 0, 0, initMetrics⟩

/-- A device_switch event of user "A" at t = 0. -/
def devEvent : Event := ⟨"A", EventType.device_switch, 0, 0, 0⟩

/-- A login event of user "B" 25 hours later (t = 90000000 ms). -/
def loginEvent : Event := ⟨"B", EventType.login, 90000000, 0, 0⟩

/-- The activeUsers map after recording `devEvent` and then
`loginEvent` starting from an empty monitor. -/
def twoUserMap : UserMap :=
  updateUserBehavior [devEvent, loginEvent]
    (updateUserBehavior [devEvent] [] devEvent) loginEvent

/-- Five calculators that all throw. -/
def failingCalculators : List RiskCalculator :=
  List.replicate 5 (fun _ => none)

/-- Five calculators that all succeed and report zero risk. -/
def zeroRiskCalculators : List RiskCalculator :=
  List.replicate 5 (fun _ => some (0, 1/4))

end RTM

namespace NA

/-- An IP cluster of network-analyzer.js; `users` models the JS Set of
member user ids (distinct members). -/
structure Cluster where
  users : List String
  riskScore : ℚ
  deriving DecidableEq

/-- A device-fingerprint profile; `users` models the JS Set of user
ids sharing the fingerprint. -/
structure DeviceProfile where
  users : List String
  suspiciousFeatures : List String
  deriving DecidableEq

/-- Analyzer configuration (constructor of NetworkFraudAnalyzer);
default minClusterSize 3. -/
structure NAConfig where
  minClusterSize : ℕ := 3
  deriving DecidableEq

/-- A candidate fraud ring as pushed by detectFraudRings. -/
structure FraudRing where
  type : String
  key : String
  users : List String
  riskScore : ℚ
  indicators : List String
  deriving DecidableEq

/-- State of the analyzer consulted by detectFraudRings. -/
structure AnalyzerState where
  config : NAConfig
  ipClusters : List (String × Cluster)
  deviceFingerprints : List (String × DeviceProfile)
  deriving DecidableEq

/-- Stub in the source ("Additional helper methods would be implemented
here..."): analyzeClusterUsers returns the empty list. -/
def analyzeClusterUsers (_cluster : Cluster) : List String := []

/-- Stub in the source: getClusterSuspiciousIndicators returns []. -/
def getClusterSuspiciousIndicators (_cluster : Cluster) : List String := []

/-- Stub in the source: analyzeDeviceUsers returns []. -/
def analyzeDeviceUsers (_profile : DeviceProfile) : List String := []

/-- Stub in the source: calculateDeviceClusterRisk returns 0. -/
def calculateDeviceClusterRisk (_profile : DeviceProfile) : ℚ := 0

/-- Stub in the source: detectBehavioralClusters returns []. -/
def detectBehavioralClusters (_st : AnalyzerState) : List FraudRing := []

/-- detectFraudRings: a cluster contributes a ring only when both its
member count and the count of suspicious users found by the (stubbed)
analyzeClusterUsers / analyzeDeviceUsers reach minClusterSize. -/
def detectFraudRings (st : AnalyzerState) : List FraudRing :=
  let ipRings := (st.ipClusters.map (fun kv =>
    if kv.2.users.length ≥ st.config.minClusterSize then
      let suspiciousUsers := analyzeClusterUsers kv.2
      if suspiciousUsers.length ≥ st.config.minClusterSize then
        [FraudRing.mk "ip_cluster" kv.1 suspiciousUsers kv.2.riskScore
          (getClusterSuspiciousIndicators kv.2)]
      else []
    else [])).flatten
  let deviceRings := (st.deviceFingerprints.map (fun kv =>
    if kv.2.users.length ≥ st.config.minClusterSize then
      let suspiciousUsers := analyzeDeviceUsers kv.2
      if suspiciousUsers.length ≥ st.config.minClusterSize then
        [FraudRing.mk "device_cluster" kv.1 suspiciousUsers
          (calculateDeviceClusterRisk kv.2) kv.2.suspiciousFeatures]
      else []
    else [])).flatten
  ipRings ++ deviceRings ++ detectBehavioralClusters st

/-- A concrete analyzer state holding one IP cluster of three distinct
users, at the default minClusterSize of 3. -/
def naSampleCluster : Cluster := ⟨["u1", "u2", "u3"], 0⟩

/-- Analyzer state carrying only `naSampleCluster`. -/
def naSample : AnalyzerState := ⟨⟨3⟩, [("203.0.113.7", naSampleCluster)], []⟩

/-- Indicator record consumed by calculateCategoryRisk; field defaults
are the JS absent/falsy values. -/
structure Indicators where
  isSharedIP : Bool := false
  isProxy : Bool := false
  isVPN : Bool := false
  isTor : Bool := false
  sharedUsers : ℚ := 0
  automationSigns : Bool := false
  spoofingIndicators : List String := []
  impossibleTravel : Bool := false
  rapidMovement : Bool := false
  isCoordinated : Bool := false
  coordinationScore : ℚ := 0
  deriving DecidableEq

/-- calculateCategoryRisk: additive indicator contributions capped at 1;
`none` models a missing or non-object indicators value (risk 0). -/
def calculateCategoryRisk (indicators : Option Indicators) : ℚ :=
  match indicators with
  | none => 0
  | some ind =>
    let risk : ℚ :=
      (if ind.isSharedIP then 3/10 else 0) +
      (if ind.isProxy then 4/10 else 0) +
      (if ind.isVPN then 3/10 else 0) +
      (if ind.isTor then 8/10 else 0) +
      (if ind.sharedUsers > 5 then 4/10 else 0) +
      (if ind.automationSigns then 6/10 else 0) +
      (if ind.spoofingIndicators.length > 0 then 5/10 else 0) +
      (if ind.impossibleTravel then 8/10 else 0) +
      (if ind.rapidMovement then 4/10 else 0) +
      (if ind.isCoordinated then 7/10 else 0) +
      (if ind.coordinationScore > 1/2 then ind.coordinationScore * (1/2) else 0)
    min risk 1

/-- The weights table of calculateNetworkRiskScore; unknown categories
fall back to 0.1 (JS `weights[category] || 0.1`). -/
def categoryWeight (category : String) : ℚ :=
  if category = "ipAnalysis" then 1/4
  else if category = "deviceAnalysis" then 1/5
  else if category = "proxyVPN" then 1/5
  else if category = "geolocation" then 3/20
  else if category = "coordination" then 1/5
  else 1/10

/-- calculateNetworkRiskScore: weight-normalised combination of the
category risks over the entries of the fraudIndicators object. -/
def calculateNetworkRiskScore
    (fraudIndicators : List (String × Option Indicators)) : ℚ :=
  let acc := fraudIndicators.foldl (fun acc kv =>
    (acc.1 + calculateCategoryRisk kv.2 * categoryWeight kv.1,
     acc.2 + categoryWeight kv.1)) (0, 0)
  if 0 < acc.2 then acc.1 / acc.2 else 0

end NA

namespace BB

/-- The object returned by determineAuthenticity: JS objects
`\x7b authentic, confidence \x7d` or `\x7b authentic, reason \x7d`,
modelled with the absent field as `none`. -/
structure AuthResult where
  authentic : Bool
  confidence : Option String
  reason : Option String
  deriving DecidableEq

/-- determineAuthenticity of behavioral-biometrics.js.  The JS guard
`!compositeBiometricScore` is taken exactly when the numeric score is 0
(the only falsy rational); it returns `reason: insufficient_data`
without any confidence field. -/
def determineAuthenticity (similarityThreshold : ℚ) (score : ℚ) :
    AuthResult :=
  if score = 0 then ⟨false, none, some "insufficient_data"⟩
  else if score ≥ similarityThreshold then ⟨true, some "high", none⟩
  else if score ≥ similarityThreshold - 1/5 then ⟨true, some "medium", none⟩
  else ⟨false, some "high", none⟩

/-- Default similarityThreshold of the BehavioralBiometricsAnalyzer
constructor (0.85). -/
def defaultSimilarityThreshold : ℚ := 17/20

/-- A metric value: a JS number, or a falsy non-number (undefined,
null, false, empty string), which `typeof v === 'number'` rejects and
`v || 0` turns into 0. -/
inductive MVal
  | num (q : ℚ)
  | other
  deriving DecidableEq

/-- A metrics record, as an association list. -/
abbrev Metrics := List (String × MVal)

/-- The keys loop of calculateSimilarity: the entries of metrics1 whose
value is a number, with that numeric value. -/
def numericEntries (m : Metrics) : List (String × ℚ) :=
  m.filterMap (fun kv =>
    match kv.2 with
    | MVal.num q => some (kv.1, q)
    | MVal.other => none)

/-- JS `metrics2[key] || 0`: the numeric value bound to the key, and 0
when the key is absent or bound to a falsy non-number. -/
def jsLookup (m : Metrics) (k : String) : ℚ :=
  match m.find? (fun kv => kv.1 == k) with
  | some (_, MVal.num q) => q
  | _ => 0

/-- The dotProduct accumulator of calculateSimilarity: summed over the
numeric keys of metrics1 only. -/
def dotProduct (m1 m2 : Metrics) : ℚ :=
  ((numericEntries m1).map (fun kv => kv.2 * jsLookup m2 kv.1)).sum

/-- The norm1 accumulator: squares of metrics1's numeric values. -/
def norm1Sum (m1 : Metrics) : ℚ :=
  ((numericEntries m1).map (fun kv => kv.2 * kv.2)).sum

/-- The norm2 accumulator: squares of metrics2's values at metrics1's
numeric keys. -/
def norm2Sum (m1 m2 : Metrics) : ℚ :=
  ((numericEntries m1).map (fun kv =>
    jsLookup m2 kv.1 * jsLookup m2 kv.1)).sum

open Classical in
/-- calculateSimilarity: cosine similarity over the projected vectors,
with result 0 whenever `Math.sqrt(norm1) * Math.sqrt(norm2)` is not
positive (the division-by-zero guard). -/
noncomputable def calculateSimilarity (m1 m2 : Metrics) : ℝ :=
  let magnitude := Real.sqrt (norm1Sum m1) * Real.sqrt (norm2Sum m1 m2)
  if 0 < magnitude then (dotProduct m1 m2 : ℝ) / magnitude else 0

/-- A one-key current-metrics record. -/
def cexM1 : Metrics := [("a", MVal.num 1)]

/-- A baseline record whose shared value has the opposite sign. -/
def cexM2 : Metrics := [("a", MVal.num (-1))]

end BB

namespace NA

/-- The networkInfo payload consumed by generateBrowserFingerprint.
The nine canonicalized fields are modelled as strings (the values the
test harness supplies); `ipAddress` stands for the payload fields that
the fingerprint does not read. -/
structure NetworkData where
  userAgent : String
  screenResolution : String
  timezone : String
  acceptLanguage : String
  platformInfo : String
  colorDepth : String
  plugins : String
  cookiesEnabled : String
  doNotTrack : String
  ipAddress : String := ""
  deriving DecidableEq

/-- Lower-case hex digit of a nibble. -/
def hexDigitChar (n : ℕ) : Char :=
  if n < 10 then Char.ofNat (48 + n) else Char.ofNat (87 + n)

/-- JSON.stringify's escaping of one character inside a string value
(ECMA-262 QuoteJSONString): quote and backslash get a backslash escape,
the named control characters get two-character escapes, the remaining
control characters get a \u00XX escape, everything else is copied. -/
def escapeChar (c : Char) : List Char :=
  if c = '"' then ['\\', '"']
  else if c = '\\' then ['\\', '\\']
  else if c = '\x08' then ['\\', 'b']
  else if c = '\x09' then ['\\', 't']
  else if c = '\x0a' then ['\\', 'n']
  else if c = '\x0c' then ['\\', 'f']
  else if c = '\x0d' then ['\\', 'r']
  else if c.toNat < 32 then
    ['\\', 'u', '0', '0', hexDigitChar (c.toNat / 16), hexDigitChar (c.toNat % 16)]
  else [c]

/-- JSON escaping of a whole string value. -/
def escapeString (s : List Char) : List Char :=
  (s.map escapeChar).flatten

/-- One `"key":"value` segment of the serialized fingerprint object:
the literal separator-plus-key text and opening quote, the escaped
value, its closing quote, then the rest of the serialization. -/
def fpSegment (lit : String) (v : String) (rest : List Char) : List Char :=
  lit.data ++ (escapeString v.data ++ ('"' :: rest))

/-- The JSON.stringify output for the fingerprintData object literal of
generateBrowserFingerprint: the nine fields, in the fixed key order of
the object literal (the concatenation equals the flat JSON text,
built right-associated segment by segment). -/
def fingerprintChars (d : NetworkData) : List Char :=
  fpSegment "\x7b\"userAgent\":\"" d.userAgent
    (fpSegment ",\"screenResolution\":\"" d.screenResolution
      (fpSegment ",\"timezone\":\"" d.timezone
        (fpSegment ",\"language\":\"" d.acceptLanguage
          (fpSegment ",\"platform\":\"" d.platformInfo
            (fpSegment ",\"colorDepth\":\"" d.colorDepth
              (fpSegment ",\"plugins\":\"" d.plugins
                (fpSegment ",\"cookiesEnabled\":\"" d.cookiesEnabled
                  (fpSegment ",\"doNotTrack\":\"" d.doNotTrack ['\x7d']))))))))

/-- Modelled from the spec: Node's crypto.createHash('sha256') digest,
which is not part of this repository.  It is modelled as a concrete
deterministic function whose output is a 256-bit value; the development
relies only on those two properties (determinism and the finite
codomain), which the real SHA-256 shares, never on particular digest
values.  The hex digest string of the source is represented by the
256-bit value that determines it. -/
def sha256Nat (s : List Char) : ℕ :=
  s.foldl (fun h c => (h * 1099511628211 + c.toNat + 1) % 2 ^ 256) 0

/-- generateBrowserFingerprint: hash of the canonical JSON
serialization of the nine fingerprint fields. -/
def generateBrowserFingerprint (d : NetworkData) : ℕ :=
  sha256Nat (fingerprintChars d)

/-- Value of a lower-case hex digit. -/
def hexVal (c : Char) : ℕ :=
  if c.toNat ≤ 57 then c.toNat - 48 else c.toNat - 87

/-- Inverse of the JSON string-value escaping: reads characters up to
the closing unescaped quote, returning the unescaped value and the
rest of the input. -/
def parseQuoted : List Char → Option (List Char × List Char)
  | [] => none
  | c :: rest =>
    if c = '"' then some ([], rest)
    else if c = '\\' then
      match rest with
      | [] => none
      | e :: rest2 =>
        if e = '"' then (parseQuoted rest2).map (fun p => ('"' :: p.1, p.2))
        else if e = '\\' then (parseQuoted rest2).map (fun p => ('\\' :: p.1, p.2))
        else if e = 'b' then (parseQuoted rest2).map (fun p => ('\x08' :: p.1, p.2))
        else if e = 't' then (parseQuoted rest2).map (fun p => ('\x09' :: p.1, p.2))
        else if e = 'n' then (parseQuoted rest2).map (fun p => ('\x0a' :: p.1, p.2))
        else if e = 'f' then (parseQuoted rest2).map (fun p => ('\x0c' :: p.1, p.2))
        else if e = 'r' then (parseQuoted rest2).map (fun p => ('\x0d' :: p.1, p.2))
        else if e = 'u' then
          match rest2 with
          | '0' :: '0' :: h1 :: h2 :: rest3 =>
            (parseQuoted rest3).map (fun p =>
              (Char.ofNat (16 * hexVal h1 + hexVal h2) :: p.1, p.2))
          | _ => none
        else none
    else (parseQuoted rest).map (fun p => (c :: p.1, p.2))

/-- Consume an expected literal from the front of the input. -/
def dropLit : List Char → List Char → Option (List Char)
  | [], s => some s
  | _ :: _, [] => none
  | c :: p, x :: s => if x = c then dropLit p s else none

/-- The nine canonical fingerprint fields recovered by parsing. -/
structure FPFields where
  userAgent : List Char
  screenResolution : List Char
  timezone : List Char
  acceptLanguage : List Char
  platformInfo : List Char
  colorDepth : List Char
  plugins : List Char
  cookiesEnabled : List Char
  doNotTrack : List Char
  deriving DecidableEq

/-- One key-and-value step of the fingerprint parser: the expected
literal (separator, key and opening quote), then a quoted value. -/
def parseField (lit : String) (s : List Char) :
    Option (List Char × List Char) :=
  (dropLit lit.data s).bind parseQuoted

/-- Parser for the exact shape produced by `fingerprintChars`; a left
inverse of the serialization, witnessing its injectivity. -/
def parseFP (s : List Char) : Option FPFields := do
  let q1 ← parseField "\x7b\"userAgent\":\"" s
  let q2 ← parseField ",\"screenResolution\":\"" q1.2
  let q3 ← parseField ",\"timezone\":\"" q2.2
  let q4 ← parseField ",\"language\":\"" q3.2
  let q5 ← parseField ",\"platform\":\"" q4.2
  let q6 ← parseField ",\"colorDepth\":\"" q5.2
  let q7 ← parseField ",\"plugins\":\"" q6.2
  let q8 ← parseField ",\"cookiesEnabled\":\"" q7.2
  let q9 ← parseField ",\"doNotTrack\":\"" q8.2
  let s10 ← dropLit "\x7d".data q9.2
  if s10 = [] then
    some ⟨q1.1, q2.1, q3.1, q4.1, q5.1, q6.1, q7.1, q8.1, q9.1⟩
  else none

/-- A base payload for concrete fingerprint inputs. -/
def baseNetworkData : NetworkData :=
  ⟨"Mozilla/5.0", "1920x1080", "UTC", "en-US", "Linux x86_64", "24",
   "pdf", "true", "unspecified", "198.51.100.4"⟩

/-- The family of payloads used for the collision argument: the base
payload with user agents of every length in one fixed character. -/
def uaFamily (n : ℕ) : NetworkData :=
  { baseNetworkData with userAgent := String.mk (List.replicate n 'a') }

end NA


/-!
## Theorems settling the claims
-/

section ClaimC7

open BB

/-- Claim C7, counterexample: at composite score 0 the code returns the
insufficient-data record (no confidence field), not the claimed
"not authentic with high confidence" band — the three-way banding does
not cover s = 0. -/
theorem C7_score_zero_counterexample :
    determineAuthenticity defaultSimilarityThreshold 0 =
      ⟨false, none, some "insufficient_data"⟩ ∧
    determineAuthenticity defaultSimilarityThreshold 0 ≠
      ⟨false, some "high", none⟩ := by
  constructor
  · simp [determineAuthenticity]
  · simp [determineAuthenticity]

/-- Claim C7, amended: for every nonzero composite score the three-way
banding holds exactly as claimed (authentic/high at or above the
threshold, authentic/medium within 0.2 below it, not-authentic/high
below that); a score of exactly 0 instead short-circuits to the
not-authentic insufficient-data record with no confidence field. -/
theorem C7_authenticity_banding :
    ∀ similarityThreshold s : ℚ,
      determineAuthenticity similarityThreshold 0 =
        ⟨false, none, some "insufficient_data"⟩ ∧
      (s ≠ 0 →
        (similarityThreshold ≤ s →
          determineAuthenticity similarityThreshold s = ⟨true, some "high", none⟩) ∧
        (s < similarityThreshold → similarityThreshold - 1/5 ≤ s →
          determineAuthenticity similarityThreshold s = ⟨true, some "medium", none⟩) ∧
        (s < similarityThreshold - 1/5 →
          determineAuthenticity similarityThreshold s = ⟨false, some "high", none⟩)) := by
  intro θ s
  refine ⟨by simp [determineAuthenticity], fun hs => ⟨?_, ?_, ?_⟩⟩
  · intro h
    simp [determineAuthenticity, hs, ge_iff_le, h]
  · intro h1 h2
    simp only [determineAuthenticity, if_neg hs, ge_iff_le, if_neg (not_le.mpr h1),
      if_pos h2]
  · intro h
    have h1 : ¬ θ ≤ s := by linarith
    have h2 : ¬ θ - 1/5 ≤ s := not_le.mpr h
    simp only [determineAuthenticity, if_neg hs, ge_iff_le, if_neg h1, if_neg h2]

/-- Witness for C7 at the default threshold 0.85 and score 0.9. -/
theorem C7_authenticity_banding_witness :
    determineAuthenticity (17/20) (9/10) = ⟨true, some "high", none⟩ :=
  ((C7_authenticity_banding (17/20) (9/10)).2 (by norm_num)).1 (by norm_num)

end ClaimC7

section ClaimC6

open NA

/-- Claim C6, counterexample: an IP cluster with three distinct users
meets the default minClusterSize of 3, yet detectFraudRings returns no
ring for it (the stubbed analyzeClusterUsers finds no suspicious users,
and the code additionally requires minClusterSize of those). -/
theorem C6_cluster_counterexample :
    naSample.config.minClusterSize ≤ naSampleCluster.users.length ∧
    detectFraudRings naSample = [] := by
  constructor
  · decide
  · rfl

/-- Claim C6, amended: meeting minClusterSize is necessary but not
sufficient — a cluster is reported only when, in addition, the
suspicious-user analysis returns at least minClusterSize users; since
analyzeClusterUsers, analyzeDeviceUsers and detectBehavioralClusters
are stubs returning the empty list, detectFraudRings returns no rings
at all for any positive minClusterSize. -/
theorem C6_detectFraudRings_empty :
    ∀ st : AnalyzerState, 1 ≤ st.config.minClusterSize →
      detectFraudRings st = [] := by
  intro st h
  have hlen : ∀ c : Cluster, ¬ (analyzeClusterUsers c).length ≥ st.config.minClusterSize := by
    intro c
    simp only [analyzeClusterUsers, List.length_nil]
    omega
  have hlen2 : ∀ d : DeviceProfile, ¬ (analyzeDeviceUsers d).length ≥ st.config.minClusterSize := by
    intro d
    simp only [analyzeDeviceUsers, List.length_nil]
    omega
  unfold detectFraudRings
  simp only [detectBehavioralClusters, List.append_nil, List.append_eq_nil,
    List.flatten_eq_nil_iff]
  constructor
  · intro l hl
    rcases List.mem_map.1 hl with ⟨kv, _, rfl⟩
    by_cases hc : kv.2.users.length ≥ st.config.minClusterSize
    · simp [hc, hlen kv.2]
    · simp [hc]
  · intro l hl
    rcases List.mem_map.1 hl with ⟨kv, _, rfl⟩
    by_cases hc : kv.2.users.length ≥ st.config.minClusterSize
    · simp [hc, hlen2 kv.2]
    · simp [hc]

/-- Witness for C6 at the concrete sample state. -/
theorem C6_detectFraudRings_empty_witness :
    detectFraudRings naSample = [] :=
  C6_detectFraudRings_empty naSample (by decide)

end ClaimC6

section ClaimC4

open RTM

/-- Claim C4, confirmed: processing an event appends an alert exactly
when the composite risk reaches the configured alertThreshold (the
comparison is `>=`), the queued alert carries the severity of its
score, and the severity bands are inclusive at their lower bounds, so a
score of exactly 0.7 is "high" and not "medium". -/
theorem C4_alert_threshold_and_severity :
    ∀ (now : ℤ) (st : MonitorState) (event : Event),
      ((processIncomingEvent now st event).alertQueue =
          st.alertQueue ++ [⟨event.userId, processedRisk now st event,
            getSeverityLevel (processedRisk now st event)⟩]
        ↔ st.config.alertThreshold ≤ processedRisk now st event) ∧
      ((processIncomingEvent now st event).alertQueue = st.alertQueue
        ↔ processedRisk now st event < st.config.alertThreshold) ∧
      (∀ s : ℚ,
        (9/10 ≤ s → getSeverityLevel s = "critical") ∧
        (7/10 ≤ s → s < 9/10 → getSeverityLevel s = "high") ∧
        (1/2 ≤ s → s < 7/10 → getSeverityLevel s = "medium") ∧
        (s < 1/2 → getSeverityLevel s = "low")) := by
  intro now st event
  refine ⟨?_, ?_, ?_⟩
  · by_cases h : st.config.alertThreshold ≤ processedRisk now st event
    · simp [processIncomingEvent, ge_iff_le, h]
    · simp [processIncomingEvent, ge_iff_le, h]
  · by_cases h : st.config.alertThreshold ≤ processedRisk now st event
    · simp [processIncomingEvent, ge_iff_le, h, not_lt.mpr h]
    · simp [processIncomingEvent, ge_iff_le, h, lt_of_not_le h]
  · intro s
    unfold getSeverityLevel
    refine ⟨fun h => ?_, fun h1 h2 => ?_, fun h1 h2 => ?_, fun h => ?_⟩
    · rw [if_pos h]
    · rw [if_neg (not_le.mpr h2), if_pos h1]
    · rw [if_neg (not_le.mpr (show s < 9/10 by linarith)),
        if_neg (not_le.mpr h2), if_pos h1]
    · rw [if_neg (not_le.mpr (show s < 9/10 by linarith)),
        if_neg (not_le.mpr (show s < 7/10 by linarith)),
        if_neg (not_le.mpr h)]

/-- Witness for C4: a score of exactly 0.7 is classified "high". -/
theorem C4_alert_threshold_and_severity_witness :
    getSeverityLevel (7/10) = "high" :=
  ((C4_alert_threshold_and_severity 0 sampleState sampleEvent).2.2 (7/10)).2.1
    (le_refl _) (by norm_num)

end ClaimC4

section ClaimC2

open RTM

/-- Claim C2, counterexample: for an event whose user has no stored
profile the velocity calculator returns weight 1, not 0.25, and for a
non-location event the location calculator returns weight 1, not 0.20 —
the weights are not constant over all inputs. -/
theorem C2_fallback_weight_counterexample :
    calculateVelocityRisk [] [] sampleEvent = (0, 1) ∧ ((1 : ℚ) ≠ 1/4) ∧
    calculateLocationRisk [] sampleBet = (0, 1) ∧ ((1 : ℚ) ≠ 1/5) := by
  refine ⟨rfl, by norm_num, rfl, by norm_num⟩

/-- Claim C2, amended: when the event's user has a stored profile, each
calculator returns exactly the claimed (risk, weight) pair — velocity
min(trailing-window event count / 10, 1) at 0.25, pattern
min(suspicious count / 5, 1) at 0.30, location (for location_change
events) min(locationChanges / 3, 1) at 0.20, device
min(deviceSwitches / 2, 1) at 0.15, behavior min(bettingVelocity / 100,
1) at 0.10; with no profile, and for the location calculator on any
other event type, the fallback (risk 0, weight 1) is returned instead. -/
theorem C2_calculator_pairs :
    ∀ (eventStream : List Event) (activeUsers : UserMap) (event : Event),
      (lookupUser activeUsers event.userId = none →
        calculateVelocityRisk eventStream activeUsers event = (0, 1) ∧
        calculatePatternRisk activeUsers event = (0, 1) ∧
        calculateDeviceRisk activeUsers event = (0, 1) ∧
        calculateBehaviorRisk activeUsers event = (0, 1)) ∧
      (∀ p, lookupUser activeUsers event.userId = some p →
        calculateVelocityRisk eventStream activeUsers event =
          (min (((eventStream.filter (fun e =>
            decide (e.userId = event.userId ∧
              event.timestamp - 60000 < e.timestamp))).length : ℚ) / 10) 1, 1/4) ∧
        calculatePatternRisk activeUsers event =
          (min ((p.behaviorMetrics.suspiciousActions.length : ℚ) / 5) 1, 3/10) ∧
        (event.type = EventType.location_change →
          calculateLocationRisk activeUsers event =
            (min ((p.behaviorMetrics.locationChanges : ℚ) / 3) 1, 1/5)) ∧
        calculateDeviceRisk activeUsers event =
          (min ((p.behaviorMetrics.deviceSwitches : ℚ) / 2) 1, 3/20) ∧
        calculateBehaviorRisk activeUsers event =
          (min ((p.behaviorMetrics.bettingVelocity : ℚ) / 100) 1, 1/10)) ∧
      (event.type ≠ EventType.location_change →
        calculateLocationRisk activeUsers event = (0, 1)) := by
  intro eventStream activeUsers event
  refine ⟨fun h => ?_, fun p h => ?_, fun h => ?_⟩
  · exact ⟨by simp [calculateVelocityRisk, h], by simp [calculatePatternRisk, h],
      by simp [calculateDeviceRisk, h], by simp [calculateBehaviorRisk, h]⟩
  · refine ⟨by simp [calculateVelocityRisk, h], by simp [calculatePatternRisk, h],
      fun ht => ?_, by simp [calculateDeviceRisk, h], by simp [calculateBehaviorRisk, h]⟩
    simp [calculateLocationRisk, ht, h]
  · simp [calculateLocationRisk, h]

/-- Witness for C2 with a stored profile. -/
theorem C2_calculator_pairs_witness :
    calculateDeviceRisk [("u", sampleProfile)] sampleBet =
      (min ((sampleProfile.behaviorMetrics.deviceSwitches : ℚ) / 2) 1, 3/20) :=
  (((C2_calculator_pairs [] [("u", sampleProfile)] sampleBet).2.1
    sampleProfile rfl).2.2.2.1)

end ClaimC2

section ClaimC3

open RTM

/-- Claim C3, counterexample: with a later-stamped bet already in the
store, the recomputed velocity for a bet at t counts events outside the
claimed window [t - 60s, t] — the code's filter has no upper bound —
so it disagrees with the spec's closed-window count. -/
theorem C3_window_counterexample :
    calculateBettingVelocity outOfOrderStream sampleProfile sampleBet = 2 ∧
    specWindowBetCount outOfOrderStream "u" sampleBet.timestamp = 1 := by
  refine ⟨rfl, rfl⟩

/-- Claim C3, amended: after a bet_placed event, bettingVelocity equals
the count of that user's bet_placed events in the store with timestamp
strictly greater than event.timestamp - 60s (with no upper bound, so
out-of-order events stamped later than the current event are counted,
and an event stamped exactly 60s earlier is not); that count is
invariant under permutations of the store, hence independent of arrival
order once all events are present. -/
theorem C3_betting_velocity :
    ∀ (eventStream : List Event) (userProfile : UserProfile) (event : Event),
      event.type = EventType.bet_placed →
      calculateBettingVelocity eventStream userProfile event =
        (eventStream.filter (fun e =>
          decide (e.userId = userProfile.userId ∧ e.type = EventType.bet_placed ∧
            event.timestamp - 60000 < e.timestamp))).length ∧
      (updateBehaviorMetrics eventStream userProfile event).bettingVelocity =
        calculateBettingVelocity eventStream userProfile event ∧
      (∀ eventStream2 : List Event, eventStream.Perm eventStream2 →
        calculateBettingVelocity eventStream userProfile event =
          calculateBettingVelocity eventStream2 userProfile event) := by
  intro eventStream userProfile event h
  refine ⟨by simp [calculateBettingVelocity, h], ?_, fun s2 hp => ?_⟩
  · simp only [updateBehaviorMetrics, h]
    split <;> rfl
  · simp only [calculateBettingVelocity, h]
    simp only [ne_eq, not_true_eq_false, if_false]
    exact (hp.filter _).length_eq

/-- Witness for C3 at the out-of-order store. -/
theorem C3_betting_velocity_witness :
    calculateBettingVelocity outOfOrderStream sampleProfile sampleBet =
      (outOfOrderStream.filter (fun e =>
        decide (e.userId = sampleProfile.userId ∧ e.type = EventType.bet_placed ∧
          sampleBet.timestamp - 60000 < e.timestamp))).length :=
  (C3_betting_velocity outOfOrderStream sampleProfile sampleBet rfl).1

end ClaimC3

section ClaimC5

open RTM

/-- lookupUser after setUser at a different key is unchanged. -/
theorem lookupUser_setUser_ne (users : UserMap) (uid k : String)
    (p : UserProfile) (h : uid ≠ k) :
    lookupUser (setUser users k p) uid = lookupUser users uid := by
  have hku : (k == uid) = false := beq_eq_false_iff_ne.mpr (Ne.symm h)
  induction users with
  | nil =>
    simp [setUser, lookupUser, List.find?, hku]
  | cons head tail ih =>
    obtain ⟨k1, q⟩ := head
    by_cases hk : k1 = k
    · subst hk
      have h2 : (k1 == uid) = false := beq_eq_false_iff_ne.mpr (Ne.symm h)
      simp [setUser, lookupUser, List.find?, h2]
    · have h1 : (k1 == k) = false := beq_eq_false_iff_ne.mpr hk
      by_cases hu : k1 = uid
      · subst hu
        simp [setUser, lookupUser, List.find?, h1]
      · have h2 : (k1 == uid) = false := beq_eq_false_iff_ne.mpr hu
        simp only [setUser, h1, Bool.false_eq_true, if_false]
        simp only [lookupUser, List.find?, h2] at ih ⊢
        exact ih

/-- Claim C5, counterexample: after recording user A's device switch at
t = 0 and then user B's login 25 hours later, A's profile still holds
the suspicious action stamped 0 — an entry more than 24 hours older
than the time of the latest update — because the eviction only runs on
the profile of the event's own user. -/
theorem C5_stale_action_counterexample :
    ∃ p : UserProfile, lookupUser twoUserMap "A" = some p ∧
      ∃ a ∈ p.behaviorMetrics.suspiciousActions,
        a.timestamp ≤ loginEvent.timestamp - 86400000 := by
  refine ⟨⟨"A", 0, 0, 1, ⟨0, 0, 1, 0, [⟨"device_switch", 0⟩]⟩⟩, ?_,
    ⟨"device_switch", 0⟩, ?_, ?_⟩
  · rfl
  · simp
  · norm_num [loginEvent]

/-- Claim C5, amended: the 24-hour eviction is guaranteed only for the
profile of the user whose event was recorded — after
updateBehaviorMetrics, that profile's suspiciousActions contain no
entry with timestamp at or below event.timestamp - 24h — while every
other user's profile is left untouched by the update (so entries there
may be arbitrarily stale relative to the current time). -/
theorem C5_eviction_scope :
    (∀ (eventStream : List Event) (userProfile : UserProfile) (event : Event),
      ∀ a ∈ (updateBehaviorMetrics eventStream userProfile event).suspiciousActions,
        event.timestamp - 86400000 < a.timestamp) ∧
    (∀ (eventStream : List Event) (activeUsers : UserMap) (event : Event)
        (uid : String), uid ≠ event.userId →
      lookupUser (updateUserBehavior eventStream activeUsers event) uid =
        lookupUser activeUsers uid) := by
  constructor
  · intro eventStream userProfile event a ha
    simp only [updateBehaviorMetrics, List.mem_filter, decide_eq_true_eq] at ha
    exact ha.2
  · intro eventStream activeUsers event uid h
    have hset : ∀ (us : UserMap) (p : UserProfile),
        lookupUser (setUser us event.userId p) uid = lookupUser us uid :=
      fun us p => lookupUser_setUser_ne us uid event.userId p h
    unfold updateUserBehavior
    by_cases h0 : (lookupUser activeUsers event.userId).isNone
    · simp only [h0, if_true]
      split
      · exact hset activeUsers _
      · rw [hset, hset]
    · simp only [h0, if_false]
      split
      · rfl
      · exact hset activeUsers _

/-- Witness for C5: the eviction bound applied to a concrete update,
and untouchedness of a foreign profile in the concrete two-user run. -/
theorem C5_eviction_scope_witness :
    (∀ a ∈ (updateBehaviorMetrics [devEvent] sampleProfile devEvent).suspiciousActions,
      devEvent.timestamp - 86400000 < a.timestamp) ∧
    lookupUser (updateUserBehavior [devEvent] [] devEvent) "Z" =
      lookupUser [] "Z" :=
  ⟨C5_eviction_scope.1 [devEvent] sampleProfile devEvent,
   C5_eviction_scope.2 [devEvent] [] devEvent "Z" (by decide)⟩

end ClaimC5

section ClaimC1

open RTM

/-- The accumulation loop of calculateRealTimeRisk computes the sums
over exactly the successful calculator results. -/
theorem riskAccum_eq (results : List (Option (ℚ × ℚ))) :
    riskAccum results =
      (((results.filterMap id).map (fun rw => rw.1 * rw.2)).sum,
       ((results.filterMap id).map Prod.snd).sum) := by
  have aux : ∀ (rs : List (Option (ℚ × ℚ))) (a b : ℚ),
      rs.foldl (fun acc r =>
        match r with
        | some rw => (acc.1 + rw.1 * rw.2, acc.2 + rw.2)
        | none => acc) (a, b) =
        (a + ((rs.filterMap id).map (fun rw => rw.1 * rw.2)).sum,
         b + ((rs.filterMap id).map Prod.snd).sum) := by
    intro rs
    induction rs with
    | nil => intro a b; simp
    | cons r t ih =>
      intro a b
      cases r with
      | none => simp [List.foldl_cons, ih]
      | some rw =>
        simp only [List.foldl_cons, ih, List.filterMap_cons, id_eq,
          List.map_cons, List.sum_cons, Prod.mk.injEq]
        constructor <;> ring
  simpa using aux results 0 0

/-- The composite lies in [0, 1] whenever every successful calculator
result has risk in [0, 1] and nonnegative weight. -/
theorem calculateRealTimeRisk_bounds (calculators : List RiskCalculator)
    (event : Event)
    (hb : ∀ rw ∈ (calculators.map (fun c => c event)).filterMap id,
      0 ≤ rw.1 ∧ rw.1 ≤ 1 ∧ 0 ≤ rw.2) :
    0 ≤ calculateRealTimeRisk calculators event ∧
      calculateRealTimeRisk calculators event ≤ 1 := by
  have heq : calculateRealTimeRisk calculators event =
      specComposite (calculators.map (fun c => c event)) := by
    simp [calculateRealTimeRisk, specComposite, riskAccum_eq]
  rw [heq]
  unfold specComposite
  set succ := (calculators.map (fun c => c event)).filterMap id with hsucc
  have htot0 : 0 ≤ (succ.map (fun rw => rw.1 * rw.2)).sum := by
    apply List.sum_nonneg
    intro x hx
    rcases List.mem_map.1 hx with ⟨rw, hrw, rfl⟩
    rcases hb rw hrw with ⟨h1, _, h3⟩
    exact mul_nonneg h1 h3
  have htot1 : (succ.map (fun rw => rw.1 * rw.2)).sum ≤
      (succ.map Prod.snd).sum := by
    apply List.sum_le_sum
    intro rw hrw
    rcases hb rw hrw with ⟨_, h2, h3⟩
    calc rw.1 * rw.2 ≤ 1 * rw.2 := by
          exact mul_le_mul_of_nonneg_right h2 h3
      _ = rw.2 := one_mul _
  by_cases hw : 0 < (succ.map Prod.snd).sum
  · simp only [if_pos hw]
    exact ⟨div_nonneg htot0 (le_of_lt hw), (div_le_one hw).mpr htot1⟩
  · simp only [if_neg hw]
    norm_num

/-- calculateVelocityRisk always reports risk in [0, 1] and a
nonnegative weight (0.25, or 1 in the no-profile fallback). -/
theorem calculateVelocityRisk_mem (eventStream : List Event)
    (activeUsers : UserMap) (event : Event) :
    0 ≤ (calculateVelocityRisk eventStream activeUsers event).1 ∧
    (calculateVelocityRisk eventStream activeUsers event).1 ≤ 1 ∧
    0 ≤ (calculateVelocityRisk eventStream activeUsers event).2 := by
  unfold calculateVelocityRisk
  cases lookupUser activeUsers event.userId with
  | none => norm_num
  | some p =>
    exact ⟨le_min (by positivity) (by norm_num), min_le_right _ _, by norm_num⟩

/-- calculatePatternRisk always reports risk in [0, 1] and a
nonnegative weight. -/
theorem calculatePatternRisk_mem (activeUsers : UserMap) (event : Event) :
    0 ≤ (calculatePatternRisk activeUsers event).1 ∧
    (calculatePatternRisk activeUsers event).1 ≤ 1 ∧
    0 ≤ (calculatePatternRisk activeUsers event).2 := by
  unfold calculatePatternRisk
  cases lookupUser activeUsers event.userId with
  | none => norm_num
  | some p =>
    exact ⟨le_min (by positivity) (by norm_num), min_le_right _ _, by norm_num⟩

/-- calculateLocationRisk always reports risk in [0, 1] and a
nonnegative weight. -/
theorem calculateLocationRisk_mem (activeUsers : UserMap) (event : Event) :
    0 ≤ (calculateLocationRisk activeUsers event).1 ∧
    (calculateLocationRisk activeUsers event).1 ≤ 1 ∧
    0 ≤ (calculateLocationRisk activeUsers event).2 := by
  unfold calculateLocationRisk
  split
  · norm_num
  · cases lookupUser activeUsers event.userId with
    | none => norm_num
    | some p =>
      exact ⟨le_min (by positivity) (by norm_num), min_le_right _ _, by norm_num⟩

/-- calculateDeviceRisk always reports risk in [0, 1] and a
nonnegative weight. -/
theorem calculateDeviceRisk_mem (activeUsers : UserMap) (event : Event) :
    0 ≤ (calculateDeviceRisk activeUsers event).1 ∧
    (calculateDeviceRisk activeUsers event).1 ≤ 1 ∧
    0 ≤ (calculateDeviceRisk activeUsers event).2 := by
  unfold calculateDeviceRisk
  cases lookupUser activeUsers event.userId with
  | none => norm_num
  | some p =>
    exact ⟨le_min (by positivity) (by norm_num), min_le_right _ _, by norm_num⟩

/-- calculateBehaviorRisk always reports risk in [0, 1] and a
nonnegative weight. -/
theorem calculateBehaviorRisk_mem (activeUsers : UserMap) (event : Event) :
    0 ≤ (calculateBehaviorRisk activeUsers event).1 ∧
    (calculateBehaviorRisk activeUsers event).1 ≤ 1 ∧
    0 ≤ (calculateBehaviorRisk activeUsers event).2 := by
  unfold calculateBehaviorRisk
  cases lookupUser activeUsers event.userId with
  | none => norm_num
  | some p =>
    exact ⟨le_min (by positivity) (by norm_num), min_le_right _ _, by norm_num⟩

/-- Every result of the monitor's five registered calculators (none of
which throws) has risk in [0, 1] and nonnegative weight, on every
stream, user map and event. -/
theorem monitorCalculators_result_mem (eventStream : List Event)
    (activeUsers : UserMap) (event : Event) :
    ∀ rw ∈ ((monitorCalculators eventStream activeUsers).map
        (fun c => c event)).filterMap id,
      0 ≤ rw.1 ∧ rw.1 ≤ 1 ∧ 0 ≤ rw.2 := by
  intro rw hrw
  simp only [monitorCalculators, List.map_cons, List.map_nil,
    List.filterMap_cons, id_eq, List.filterMap_nil, List.mem_cons,
    List.not_mem_nil, or_false] at hrw
  rcases hrw with h | h | h | h | h <;> subst h
  · exact calculateVelocityRisk_mem eventStream activeUsers event
  · exact calculatePatternRisk_mem activeUsers event
  · exact calculateLocationRisk_mem activeUsers event
  · exact calculateDeviceRisk_mem activeUsers event
  · exact calculateBehaviorRisk_mem activeUsers event

/-- Claim C1, amended: for every calculator list the composite equals
the weight-normalised sum over exactly the non-throwing calculators (a
throwing calculator contributes neither risk nor weight), is bounded by
[0, 1] whenever each successful result has risk in [0, 1] and
nonnegative weight, and equals 0 when every calculator throws; for the
monitor's actual five calculators the [0, 1] bound holds
unconditionally — on every stream, user map and event, including the
full processIncomingEvent pipeline — because each of the five always
reports risk in [0, 1] with nonnegative weight; however the code
attaches no insufficient-data flag to the all-fail 0 (see the
counterexample theorem). -/
theorem C1_composite_risk :
    (∀ (calculators : List RiskCalculator) (event : Event),
      calculateRealTimeRisk calculators event =
        specComposite (calculators.map (fun c => c event)) ∧
      ((∀ rw ∈ (calculators.map (fun c => c event)).filterMap id,
          0 ≤ rw.1 ∧ rw.1 ≤ 1 ∧ 0 ≤ rw.2) →
        0 ≤ calculateRealTimeRisk calculators event ∧
          calculateRealTimeRisk calculators event ≤ 1) ∧
      ((∀ c ∈ calculators, c event = none) →
        calculateRealTimeRisk calculators event = 0)) ∧
    (∀ (eventStream : List Event) (activeUsers : UserMap) (event : Event),
      0 ≤ calculateRealTimeRisk
            (monitorCalculators eventStream activeUsers) event ∧
      calculateRealTimeRisk
            (monitorCalculators eventStream activeUsers) event ≤ 1) ∧
    (∀ (now : ℤ) (st : MonitorState) (event : Event),
      0 ≤ processedRisk now st event ∧ processedRisk now st event ≤ 1) := by
  refine ⟨fun calculators event => ⟨?_, fun hb =>
      calculateRealTimeRisk_bounds calculators event hb, fun hn => ?_⟩,
    fun eventStream activeUsers event =>
      calculateRealTimeRisk_bounds _ event
        (monitorCalculators_result_mem eventStream activeUsers event),
    fun now st event => ?_⟩
  · simp [calculateRealTimeRisk, specComposite, riskAccum_eq]
  · have hnil : (calculators.map (fun c => c event)).filterMap id = [] := by
      rw [List.filterMap_eq_nil_iff]
      intro o ho
      rcases List.mem_map.1 ho with ⟨c, hc, rfl⟩
      simp [hn c hc]
    simp [calculateRealTimeRisk, riskAccum_eq, hnil]
  · unfold processedRisk
    exact calculateRealTimeRisk_bounds _ event
      (monitorCalculators_result_mem _ _ event)

/-- Witness for C1: all five calculators throwing yields composite 0,
and the pipeline risk of a concrete event on the default state lies in
[0, 1]. -/
theorem C1_composite_risk_witness :
    calculateRealTimeRisk failingCalculators sampleEvent = 0 ∧
    (0 ≤ processedRisk 0 sampleState sampleEvent ∧
      processedRisk 0 sampleState sampleEvent ≤ 1) :=
  ⟨(C1_composite_risk.1 failingCalculators sampleEvent).2.2 (by
    intro c hc
    rw [List.eq_of_mem_replicate hc]),
   C1_composite_risk.2.2 0 sampleState sampleEvent⟩

/-- Claim C1, counterexample: the all-calculators-fail composite is the
plain number 0, bit-for-bit the same value produced when every
calculator succeeds with zero risk, and it is classified by the
severity bands as "low" — there is no insufficient-data flag
distinguishing it from genuinely low risk. -/
theorem C1_no_insufficient_flag_counterexample :
    calculateRealTimeRisk failingCalculators sampleEvent = 0 ∧
    calculateRealTimeRisk zeroRiskCalculators sampleEvent = 0 ∧
    calculateRealTimeRisk failingCalculators sampleEvent =
      calculateRealTimeRisk zeroRiskCalculators sampleEvent ∧
    getSeverityLevel (calculateRealTimeRisk failingCalculators sampleEvent) =
      "low" := by
  have h1 : calculateRealTimeRisk failingCalculators sampleEvent = 0 := by
    norm_num [calculateRealTimeRisk, failingCalculators, List.replicate, riskAccum_eq]
  have h2 : calculateRealTimeRisk zeroRiskCalculators sampleEvent = 0 := by
    norm_num [calculateRealTimeRisk, zeroRiskCalculators, List.replicate, riskAccum_eq,
      List.filterMap_cons, List.map_cons, List.sum_cons]
  refine ⟨h1, h2, h1.trans h2.symm, ?_⟩
  rw [h1]
  norm_num [getSeverityLevel]

end ClaimC1

section ClaimC10

open NA

/-- categoryWeight is always positive. -/
theorem categoryWeight_pos (category : String) : 0 < categoryWeight category := by
  unfold categoryWeight
  repeat' split
  all_goals norm_num

/-- calculateCategoryRisk always lies in [0, 1]. -/
theorem calculateCategoryRisk_mem (indicators : Option Indicators) :
    0 ≤ calculateCategoryRisk indicators ∧ calculateCategoryRisk indicators ≤ 1 := by
  cases indicators with
  | none => exact ⟨le_refl 0, by norm_num [calculateCategoryRisk]⟩
  | some i =>
    constructor
    · simp only [calculateCategoryRisk]
      refine le_min ?_ (by norm_num)
      have h1 : (0:ℚ) ≤ if i.isSharedIP then 3/10 else 0 := by split <;> norm_num
      have h2 : (0:ℚ) ≤ if i.isProxy then 4/10 else 0 := by split <;> norm_num
      have h3 : (0:ℚ) ≤ if i.isVPN then 3/10 else 0 := by split <;> norm_num
      have h4 : (0:ℚ) ≤ if i.isTor then 8/10 else 0 := by split <;> norm_num
      have h5 : (0:ℚ) ≤ if i.sharedUsers > 5 then 4/10 else 0 := by split <;> norm_num
      have h6 : (0:ℚ) ≤ if i.automationSigns then 6/10 else 0 := by split <;> norm_num
      have h7 : (0:ℚ) ≤ if i.spoofingIndicators.length > 0 then 5/10 else 0 := by
        split <;> norm_num
      have h8 : (0:ℚ) ≤ if i.impossibleTravel then 8/10 else 0 := by split <;> norm_num
      have h9 : (0:ℚ) ≤ if i.rapidMovement then 4/10 else 0 := by split <;> norm_num
      have h10 : (0:ℚ) ≤ if i.isCoordinated then 7/10 else 0 := by split <;> norm_num
      have h11 : (0:ℚ) ≤ if i.coordinationScore > 1/2
          then i.coordinationScore * (1/2) else 0 := by
        split
        · next hc => linarith
        · exact le_refl 0
      linarith
    · exact min_le_right _ _

/-- Claim C10, confirmed: calculateCategoryRisk returns a value in
[0, 1] for every indicators input (its additive contributions are
nonnegative and capped at 1), and consequently the weight-normalised
calculateNetworkRiskScore also returns a value in [0, 1] for every
input. -/
theorem C10_network_risk_bounds :
    ∀ (indicators : Option Indicators)
      (fraudIndicators : List (String × Option Indicators)),
      (0 ≤ calculateCategoryRisk indicators ∧
        calculateCategoryRisk indicators ≤ 1) ∧
      (0 ≤ calculateNetworkRiskScore fraudIndicators ∧
        calculateNetworkRiskScore fraudIndicators ≤ 1) := by
  intro indicators fraudIndicators
  refine ⟨calculateCategoryRisk_mem indicators, ?_⟩
  have aux : ∀ (fi : List (String × Option Indicators)) (a b : ℚ),
      0 ≤ a → a ≤ b →
      0 ≤ (fi.foldl (fun acc kv =>
            (acc.1 + calculateCategoryRisk kv.2 * categoryWeight kv.1,
             acc.2 + categoryWeight kv.1)) (a, b)).1 ∧
      (fi.foldl (fun acc kv =>
            (acc.1 + calculateCategoryRisk kv.2 * categoryWeight kv.1,
             acc.2 + categoryWeight kv.1)) (a, b)).1 ≤
        (fi.foldl (fun acc kv =>
            (acc.1 + calculateCategoryRisk kv.2 * categoryWeight kv.1,
             acc.2 + categoryWeight kv.1)) (a, b)).2 := by
    intro fi
    induction fi with
    | nil => intro a b h0 hab; exact ⟨h0, hab⟩
    | cons kv t ih =>
      intro a b h0 hab
      simp only [List.foldl_cons]
      apply ih
      · have := (calculateCategoryRisk_mem kv.2).1
        have := (categoryWeight_pos kv.1).le
        positivity
      · have hcr := calculateCategoryRisk_mem kv.2
        have hw := categoryWeight_pos kv.1
        have : calculateCategoryRisk kv.2 * categoryWeight kv.1 ≤
            categoryWeight kv.1 := by
          nlinarith [hcr.2, hw.le]
        linarith
  have h := aux fraudIndicators 0 0 (le_refl 0) (le_refl 0)
  unfold calculateNetworkRiskScore
  by_cases hw : 0 < (fraudIndicators.foldl (fun acc kv =>
      (acc.1 + calculateCategoryRisk kv.2 * categoryWeight kv.1,
       acc.2 + categoryWeight kv.1)) (0, 0)).2
  · simp only [if_pos hw]
    exact ⟨div_nonneg h.1 hw.le, (div_le_one hw).mpr h.2⟩
  · simp only [if_neg hw]
    norm_num

end ClaimC10

section ClaimC9

open BB

/-- A list sum of mapped values as a sum over positions. -/
theorem list_sum_map_eq_sum_get {α : Type} (l : List α) (F : α → ℚ) :
    (l.map F).sum = ∑ i : Fin l.length, F (l.get i) := by
  conv_lhs => rw [← List.ofFn_get l]
  rw [List.map_ofFn, List.sum_ofFn]
  rfl

/-- Cauchy-Schwarz for list sums over a common index list. -/
theorem list_cauchy_schwarz {α : Type} (l : List α) (f g : α → ℚ) :
    ((l.map fun x => f x * g x).sum) ^ 2 ≤
      ((l.map fun x => f x * f x).sum) * ((l.map fun x => g x * g x).sum) := by
  rw [list_sum_map_eq_sum_get, list_sum_map_eq_sum_get, list_sum_map_eq_sum_get]
  have h := Finset.sum_mul_sq_le_sq_mul_sq Finset.univ
    (fun i : Fin l.length => f (l.get i)) (fun i : Fin l.length => g (l.get i))
  simpa [pow_two] using h

/-- norm1Sum is a sum of squares. -/
theorem norm1Sum_nonneg (m1 : Metrics) : 0 ≤ norm1Sum m1 := by
  apply List.sum_nonneg
  intro x hx
  rcases List.mem_map.1 hx with ⟨kv, _, rfl⟩
  exact mul_self_nonneg _

/-- norm2Sum is a sum of squares. -/
theorem norm2Sum_nonneg (m1 m2 : Metrics) : 0 ≤ norm2Sum m1 m2 := by
  apply List.sum_nonneg
  intro x hx
  rcases List.mem_map.1 hx with ⟨kv, _, rfl⟩
  exact mul_self_nonneg _

/-- A leading binding with a key foreign to the lookup is skipped. -/
theorem jsLookup_cons_ne (m2 : Metrics) (k key : String) (v : MVal)
    (h : key ≠ k) : jsLookup ((k, v) :: m2) key = jsLookup m2 key := by
  simp [jsLookup, List.find?, beq_eq_false_iff_ne.mpr (Ne.symm h)]

/-- Claim C9, amended: calculateSimilarity never divides by zero (the
result is 0 whenever the magnitude is not positive) and always lies in
[-1, 1] — not in [0, 1], since metric values may be negative; and the
keys it sums over are exactly the numeric keys of the FIRST record, not
the shared keys: adding to the second record a binding whose key does
not occur among the first record's numeric keys leaves the similarity
unchanged (the second record's missing values default to 0). -/
theorem C9_similarity_bounds :
    ∀ m1 m2 : Metrics,
      (-1 ≤ calculateSimilarity m1 m2 ∧ calculateSimilarity m1 m2 ≤ 1) ∧
      (¬ 0 < Real.sqrt (norm1Sum m1) * Real.sqrt (norm2Sum m1 m2) →
        calculateSimilarity m1 m2 = 0) ∧
      (∀ (k : String) (v : MVal),
        (∀ kv ∈ numericEntries m1, kv.1 ≠ k) →
        calculateSimilarity m1 ((k, v) :: m2) = calculateSimilarity m1 m2) := by
  intro m1 m2
  refine ⟨?_, fun hneg => ?_, fun k v hk => ?_⟩
  · by_cases hpos : 0 < Real.sqrt (norm1Sum m1) * Real.sqrt (norm2Sum m1 m2)
    · have hcs : (dotProduct m1 m2) ^ 2 ≤ norm1Sum m1 * norm2Sum m1 m2 :=
        list_cauchy_schwarz (numericEntries m1) (fun kv => kv.2)
          (fun kv => jsLookup m2 kv.1)
      have hcast : ((dotProduct m1 m2 : ℝ)) ^ 2 ≤
          (norm1Sum m1 : ℝ) * (norm2Sum m1 m2 : ℝ) := by
        exact_mod_cast hcs
      have habs : |(dotProduct m1 m2 : ℝ)| ≤
          Real.sqrt (norm1Sum m1) * Real.sqrt (norm2Sum m1 m2) := by
        have h1 := Real.abs_le_sqrt hcast
        rwa [Real.sqrt_mul (by exact_mod_cast norm1Sum_nonneg m1)] at h1
      have hb : |calculateSimilarity m1 m2| ≤ 1 := by
        simp only [calculateSimilarity, if_pos hpos]
        rw [abs_div, abs_of_pos hpos]
        exact (div_le_one hpos).mpr habs
      exact abs_le.mp hb
    · simp only [calculateSimilarity, if_neg hpos]
      norm_num
  · simp only [calculateSimilarity, if_neg hneg]
  · have hd : dotProduct m1 ((k, v) :: m2) = dotProduct m1 m2 := by
      unfold dotProduct
      congr 1
      apply List.map_congr_left
      intro kv hkv
      rw [jsLookup_cons_ne m2 k kv.1 v (hk kv hkv)]
    have hn : norm2Sum m1 ((k, v) :: m2) = norm2Sum m1 m2 := by
      unfold norm2Sum
      congr 1
      apply List.map_congr_left
      intro kv hkv
      rw [jsLookup_cons_ne m2 k kv.1 v (hk kv hkv)]
    unfold calculateSimilarity
    rw [hd, hn]

/-- Witness for C9: a binding under a foreign key added to the baseline
record does not change the similarity. -/
theorem C9_similarity_bounds_witness :
    calculateSimilarity cexM1 [("b", MVal.num 5)] =
      calculateSimilarity cexM1 [] :=
  (C9_similarity_bounds cexM1 []).2.2 "b" (MVal.num 5) (by decide)

/-- Claim C9, counterexample: on single-key records with values 1 and
-1 the similarity is negative (it equals -1), so the claimed range
[0, 1] is wrong. -/
theorem C9_negative_similarity_counterexample :
    calculateSimilarity cexM1 cexM2 < 0 := by
  have hd : dotProduct cexM1 cexM2 = -1 := by
    norm_num [dotProduct, numericEntries, jsLookup, cexM1, cexM2,
      List.filterMap_cons, List.find?]
  have h1 : norm1Sum cexM1 = 1 := by
    norm_num [norm1Sum, numericEntries, cexM1, List.filterMap_cons]
  have h2 : norm2Sum cexM1 cexM2 = 1 := by
    norm_num [norm2Sum, numericEntries, jsLookup, cexM1, cexM2,
      List.filterMap_cons, List.find?]
  unfold calculateSimilarity
  rw [hd, h1, h2]
  norm_num [Real.sqrt_one]

end ClaimC9

section ClaimC8

open NA

theorem dropLit_append (p s : List Char) : dropLit p (p ++ s) = some s := by
  induction p with
  | nil => rfl
  | cons c t ih => simp [dropLit, ih]

theorem hexVal_hexDigitChar : ∀ n : Fin 16, hexVal (hexDigitChar n.val) = n.val := by
  decide

theorem pq_quote (rest : List Char) :
    parseQuoted ('"' :: rest) = some ([], rest) := by
  conv_lhs => unfold parseQuoted
  rfl

theorem pq_esc_quote (rest : List Char) :
    parseQuoted ('\\' :: '"' :: rest) =
      (parseQuoted rest).map (fun p => ('"' :: p.1, p.2)) := by
  conv_lhs => unfold parseQuoted
  rfl

theorem pq_esc_back (rest : List Char) :
    parseQuoted ('\\' :: '\\' :: rest) =
      (parseQuoted rest).map (fun p => ('\\' :: p.1, p.2)) := by
  conv_lhs => unfold parseQuoted
  rfl

theorem pq_esc_b (rest : List Char) :
    parseQuoted ('\\' :: 'b' :: rest) =
      (parseQuoted rest).map (fun p => ('\x08' :: p.1, p.2)) := by
  conv_lhs => unfold parseQuoted
  rfl

theorem pq_esc_t (rest : List Char) :
    parseQuoted ('\\' :: 't' :: rest) =
      (parseQuoted rest).map (fun p => ('\x09' :: p.1, p.2)) := by
  conv_lhs => unfold parseQuoted
  rfl

theorem pq_esc_n (rest : List Char) :
    parseQuoted ('\\' :: 'n' :: rest) =
      (parseQuoted rest).map (fun p => ('\x0a' :: p.1, p.2)) := by
  conv_lhs => unfold parseQuoted
  rfl

theorem pq_esc_f (rest : List Char) :
    parseQuoted ('\\' :: 'f' :: rest) =
      (parseQuoted rest).map (fun p => ('\x0c' :: p.1, p.2)) := by
  conv_lhs => unfold parseQuoted
  rfl

theorem pq_esc_r (rest : List Char) :
    parseQuoted ('\\' :: 'r' :: rest) =
      (parseQuoted rest).map (fun p => ('\x0d' :: p.1, p.2)) := by
  conv_lhs => unfold parseQuoted
  rfl

theorem pq_esc_u (d1 d2 : Char) (rest : List Char) :
    parseQuoted ('\\' :: 'u' :: '0' :: '0' :: d1 :: d2 :: rest) =
      (parseQuoted rest).map (fun p =>
        (Char.ofNat (16 * hexVal d1 + hexVal d2) :: p.1, p.2)) := by
  conv_lhs => unfold parseQuoted
  rfl

theorem pq_other (c : Char) (rest : List Char) (h1 : c ≠ '"') (h2 : c ≠ '\\') :
    parseQuoted (c :: rest) = (parseQuoted rest).map (fun p => (c :: p.1, p.2)) := by
  conv_lhs => unfold parseQuoted
  rw [if_neg h1, if_neg h2]

theorem parseQuoted_escapeString (s rest : List Char) :
    parseQuoted (escapeString s ++ '"' :: rest) = some (s, rest) := by
  induction s with
  | nil =>
    rw [show escapeString [] = [] from rfl, List.nil_append, pq_quote]
  | cons c t ih =>
    rw [show escapeString (c :: t) = escapeChar c ++ escapeString t from by
      simp [escapeString], List.append_assoc]
    by_cases h1 : c = '"'
    · subst h1
      rw [show escapeChar '"' = ['\\', '"'] from rfl]
      rw [List.cons_append, List.cons_append, List.nil_append, pq_esc_quote, ih]
      rfl
    · by_cases h2 : c = '\\'
      · subst h2
        rw [show escapeChar '\\' = ['\\', '\\'] from rfl]
        rw [List.cons_append, List.cons_append, List.nil_append, pq_esc_back, ih]
        rfl
      · by_cases h3 : c = '\x08'
        · subst h3
          rw [show escapeChar '\x08' = ['\\', 'b'] from rfl]
          rw [List.cons_append, List.cons_append, List.nil_append, pq_esc_b, ih]
          rfl
        · by_cases h4 : c = '\x09'
          · subst h4
            rw [show escapeChar '\x09' = ['\\', 't'] from rfl]
            rw [List.cons_append, List.cons_append, List.nil_append, pq_esc_t, ih]
            rfl
          · by_cases h5 : c = '\x0a'
            · subst h5
              rw [show escapeChar '\x0a' = ['\\', 'n'] from rfl]
              rw [List.cons_append, List.cons_append, List.nil_append, pq_esc_n, ih]
              rfl
            · by_cases h6 : c = '\x0c'
              · subst h6
                rw [show escapeChar '\x0c' = ['\\', 'f'] from rfl]
                rw [List.cons_append, List.cons_append, List.nil_append, pq_esc_f, ih]
                rfl
              · by_cases h7 : c = '\x0d'
                · subst h7
                  rw [show escapeChar '\x0d' = ['\\', 'r'] from rfl]
                  rw [List.cons_append, List.cons_append, List.nil_append, pq_esc_r, ih]
                  rfl
                · by_cases h8 : c.toNat < 32
                  · rw [show escapeChar c =
                      ['\\', 'u', '0', '0', hexDigitChar (c.toNat / 16),
                        hexDigitChar (c.toNat % 16)] from by
                      unfold escapeChar
                      rw [if_neg h1, if_neg h2, if_neg h3, if_neg h4, if_neg h5,
                        if_neg h6, if_neg h7, if_pos h8]]
                    rw [List.cons_append, List.cons_append, List.cons_append,
                      List.cons_append, List.cons_append, List.cons_append,
                      List.nil_append, pq_esc_u, ih]
                    have hhi : hexVal (hexDigitChar (c.toNat / 16)) = c.toNat / 16 :=
                      hexVal_hexDigitChar ⟨c.toNat / 16, by omega⟩
                    have hlo : hexVal (hexDigitChar (c.toNat % 16)) = c.toNat % 16 :=
                      hexVal_hexDigitChar ⟨c.toNat % 16, by omega⟩
                    rw [hhi, hlo, show 16 * (c.toNat / 16) + c.toNat % 16 = c.toNat from by
                      omega, Char.ofNat_toNat]
                    rfl
                  · rw [show escapeChar c = [c] from by
                      unfold escapeChar
                      rw [if_neg h1, if_neg h2, if_neg h3, if_neg h4, if_neg h5,
                        if_neg h6, if_neg h7, if_neg h8]]
                    rw [List.cons_append, List.nil_append, pq_other c _ h1 h2, ih]
                    rfl



theorem parseField_fpSegment (lit v : String) (rest : List Char) :
    parseField lit (fpSegment lit v rest) = some (v.data, rest) := by
  unfold parseField fpSegment
  rw [dropLit_append]
  simp only [Option.some_bind]
  exact parseQuoted_escapeString v.data rest

theorem parseFP_fingerprintChars (d : NetworkData) :
    parseFP (fingerprintChars d) =
      some ⟨d.userAgent.data, d.screenResolution.data, d.timezone.data,
        d.acceptLanguage.data, d.platformInfo.data, d.colorDepth.data,
        d.plugins.data, d.cookiesEnabled.data, d.doNotTrack.data⟩ := by
  simp only [parseFP, fingerprintChars, parseField_fpSegment,
    Option.bind_eq_bind, Option.some_bind]
  rw [show dropLit "\x7d".data ['\x7d'] = some [] from rfl]
  simp

theorem fingerprintChars_inj (d1 d2 : NetworkData)
    (h : fingerprintChars d1 = fingerprintChars d2) :
    d1.userAgent = d2.userAgent ∧ d1.screenResolution = d2.screenResolution ∧
    d1.timezone = d2.timezone ∧ d1.acceptLanguage = d2.acceptLanguage ∧
    d1.platformInfo = d2.platformInfo ∧ d1.colorDepth = d2.colorDepth ∧
    d1.plugins = d2.plugins ∧ d1.cookiesEnabled = d2.cookiesEnabled ∧
    d1.doNotTrack = d2.doNotTrack := by
  have h1 := parseFP_fingerprintChars d1
  rw [h] at h1
  have h2 := h1.symm.trans (parseFP_fingerprintChars d2)
  rw [Option.some.injEq] at h2
  refine ⟨String.ext (congrArg FPFields.userAgent h2),
    String.ext (congrArg FPFields.screenResolution h2),
    String.ext (congrArg FPFields.timezone h2),
    String.ext (congrArg FPFields.acceptLanguage h2),
    String.ext (congrArg FPFields.platformInfo h2),
    String.ext (congrArg FPFields.colorDepth h2),
    String.ext (congrArg FPFields.plugins h2),
    String.ext (congrArg FPFields.cookiesEnabled h2),
    String.ext (congrArg FPFields.doNotTrack h2)⟩

theorem sha256Nat_lt (s : List Char) : sha256Nat s < 2 ^ 256 := by
  unfold sha256Nat
  have aux : ∀ (l : List Char) (h : ℕ), h < 2 ^ 256 →
      l.foldl (fun h c => (h * 1099511628211 + c.toNat + 1) % 2 ^ 256) h < 2 ^ 256 := by
    intro l
    induction l with
    | nil => intro h hh; exact hh
    | cons c t ih =>
      intro h hh
      exact ih _ (Nat.mod_lt _ (Nat.pos_pow_of_pos 256 (by norm_num)))
  exact aux s 0 (Nat.pos_pow_of_pos 256 (by norm_num))

theorem C8_collision_exists :
    ∃ d1 d2 : NetworkData,
      d1.userAgent ≠ d2.userAgent ∧
      d1.screenResolution = d2.screenResolution ∧ d1.timezone = d2.timezone ∧
      d1.acceptLanguage = d2.acceptLanguage ∧ d1.platformInfo = d2.platformInfo ∧
      d1.colorDepth = d2.colorDepth ∧ d1.plugins = d2.plugins ∧
      d1.cookiesEnabled = d2.cookiesEnabled ∧ d1.doNotTrack = d2.doNotTrack ∧
      generateBrowserFingerprint d1 = generateBrowserFingerprint d2 := by
  obtain ⟨n, m, hnm, hf⟩ := Finite.exists_ne_map_eq_of_infinite
    (fun n : ℕ => (⟨generateBrowserFingerprint (uaFamily n),
      sha256Nat_lt _⟩ : Fin (2 ^ 256)))
  refine ⟨uaFamily n, uaFamily m, ?_, rfl, rfl, rfl, rfl, rfl, rfl, rfl, rfl, ?_⟩
  · intro hua
    apply hnm
    have hlen := congrArg (fun s : String => s.data.length) hua
    simpa [uaFamily] using hlen
  · exact congrArg Fin.val hf

/-- Claim C8, amended: the fingerprint is a deterministic function of
the nine canonicalized fields — two payloads agreeing on them (whatever
their other fields) hash identically — and the canonical JSON
serialization is injective in those fields, so payloads differing in
exactly one field always serialize differently; their digests differ
only up to SHA-256 collisions, which must exist by pigeonhole (see the
counterexample theorem), so "different field implies different hash"
cannot hold universally. -/
theorem C8_fingerprint_determinism :
    ∀ d1 d2 : NetworkData,
      ((d1.userAgent = d2.userAgent ∧ d1.screenResolution = d2.screenResolution ∧
        d1.timezone = d2.timezone ∧ d1.acceptLanguage = d2.acceptLanguage ∧
        d1.platformInfo = d2.platformInfo ∧ d1.colorDepth = d2.colorDepth ∧
        d1.plugins = d2.plugins ∧ d1.cookiesEnabled = d2.cookiesEnabled ∧
        d1.doNotTrack = d2.doNotTrack) →
        generateBrowserFingerprint d1 = generateBrowserFingerprint d2) ∧
      (fingerprintChars d1 = fingerprintChars d2 →
        (d1.userAgent = d2.userAgent ∧ d1.screenResolution = d2.screenResolution ∧
         d1.timezone = d2.timezone ∧ d1.acceptLanguage = d2.acceptLanguage ∧
         d1.platformInfo = d2.platformInfo ∧ d1.colorDepth = d2.colorDepth ∧
         d1.plugins = d2.plugins ∧ d1.cookiesEnabled = d2.cookiesEnabled ∧
         d1.doNotTrack = d2.doNotTrack)) := by
  intro d1 d2
  constructor
  · rintro ⟨e1, e2, e3, e4, e5, e6, e7, e8, e9⟩
    unfold generateBrowserFingerprint
    congr 1
    unfold fingerprintChars
    rw [e1, e2, e3, e4, e5, e6, e7, e8, e9]
  · exact fingerprintChars_inj d1 d2

/-- Witness for C8: two payloads differing only in the ipAddress field
(which the fingerprint does not read) hash identically. -/
theorem C8_fingerprint_determinism_witness :
    generateBrowserFingerprint baseNetworkData =
      generateBrowserFingerprint
        { baseNetworkData with ipAddress := "203.0.113.9" } :=
  (C8_fingerprint_determinism baseNetworkData
    { baseNetworkData with ipAddress := "203.0.113.9" }).1
    ⟨rfl, rfl, rfl, rfl, rfl, rfl, rfl, rfl, rfl⟩

end ClaimC8
